import Mathlib

/-
  Verification of the LLM provider abstraction layer of the
  ai-scripts-and-tools repository (files under src/utils/llm/**).

  The TypeScript source is shallowly embedded: each provider client's
  constructor, request formatting, response parsing and error wrapping is
  translated into executable Lean definitions.  JavaScript object-literal
  semantics that matter here (a key that is present with the value
  `undefined` overrides an earlier key during object spread, while an
  absent key does not) are modelled by `JsField`.
-/

/-! ## String helpers (JS `String.prototype.includes`, `toLowerCase`) -/

/-- Predicate `startsWithL needle hay`: true when `needle` is an initial segment of `hay`. -/
def startsWithL : List Char → List Char → Bool
  | [], _ => true
  | _ :: _, [] => false
  | a :: as, b :: bs => a = b && startsWithL as bs

/-- Predicate `occursIn needle hay`: true when `needle` appears contiguously inside `hay`. -/
def occursIn (needle : List Char) : List Char → Bool
  | [] => startsWithL needle []
  | c :: rest => startsWithL needle (c :: rest) || occursIn needle rest

/-- Mirror of JS `hay.includes(needle)`. -/
def strContains (hay needle : String) : Bool :=
  occursIn needle.toList hay.toList

/-- Mirror of JS `s.toLowerCase()` (ASCII, which is all the source uses). -/
def lowerStr (s : String) : String :=
  String.mk (s.toList.map Char.toLower)

/-- Whitespace for JS `String.prototype.trim` (the characters that occur in
this development). -/
def wspChar (c : Char) : Bool :=
  c = ' ' || c = '\t' || c = '\n' || c = '\r'

def dropWhileL (p : Char → Bool) : List Char → List Char
  | [] => []
  | c :: rest => if p c then dropWhileL p rest else c :: rest

/-- Mirror of JS `s.trim()` (structural, so that proofs can evaluate it). -/
def trimStr (s : String) : String :=
  String.mk ((dropWhileL wspChar ((dropWhileL wspChar s.toList).reverse)).reverse)


/-! ## A model of parsed JSON values

`JVal` stands for the value produced by `JSON.parse`.  The HTTP plumbing
(temp files, `curl`, `HttpClient.post`) is I/O glue; each `getCompletion`
below takes the provider's HTTP response as an argument, with the response
body given already parsed (`none` models a body that is not valid JSON, on
which `JSON.parse` throws). -/

inductive JVal where
  | jnull
  | jbool (b : Bool)
  | jnum (n : Int)
  | jstr (s : String)
  | jarr (elems : List JVal)
  | jobj (fields : List (String × JVal))

/-- Property lookup on an object (`undefined`, i.e. `none`, everywhere else). -/
def lookupField : List (String × JVal) → String → Option JVal
  | [], _ => none
  | (k, v) :: rest, key => if k = key then some v else lookupField rest key

/-- Property access: `j.getF k` models the JS expression `j[k]`. -/
def JVal.getF : JVal → String → Option JVal
  | .jobj fields, key => lookupField fields key
  | _, _ => none

/-- JS truthiness of a value. -/
def JVal.truthy : JVal → Bool
  | .jnull => false
  | .jbool b => b
  | .jnum n => n != 0
  | .jstr s => s ≠ ""
  | .jarr _ => true
  | .jobj _ => true

/-- JS truthiness where `none` models `undefined`. -/
def truthyO : Option JVal → Bool
  | some j => j.truthy
  | none => false

/-- Models the JS guard `x && x.length > 0` used on `choices` / `content` arrays. -/
def truthyLen : Option JVal → Bool
  | some (.jarr xs) => !xs.isEmpty
  | some (.jstr s) => s ≠ ""
  | _ => false

/-- First element of an array value, as used after a `length > 0` guard.
For a (truthy) string JS would yield its first character; all property
accesses on it are `undefined`, which `jnull` reproduces. -/
def idx0 : Option JVal → JVal
  | some (.jarr (x :: _)) => x
  | _ => .jnull

/-- String conversion used by JS template literals, with a recursion bound on
array nesting (no value in this development nests arrays; the bound is never
reached by any theorem below). -/
def JVal.displayFuel : Nat → JVal → String
  | 0, _ => ""
  | _ + 1, .jnull => "null"
  | _ + 1, .jbool true => "true"
  | _ + 1, .jbool false => "false"
  | _ + 1, .jnum n => toString n
  | _ + 1, .jstr s => s
  | _ + 1, .jobj _ => "[object Object]"
  | fuel + 1, .jarr xs =>
      String.intercalate "," (xs.map fun x => JVal.displayFuel fuel x)

def JVal.display (j : JVal) : String := JVal.displayFuel 100 j

/-- Template interpolation of an `Option JVal` (`undefined` interpolates as "undefined"). -/
def displayO : Option JVal → String
  | some j => j.display
  | none => "undefined"

/-- Element conversion inside `Array.prototype.join` (null and undefined
become the empty string). -/
def displayForJoin : Option JVal → String
  | none => ""
  | some .jnull => ""
  | some j => j.display

/-- Model of `JSON.stringify`, with the same recursion bound as `display` (string
escaping is not modelled; no theorem depends on this function). -/
def JVal.stringifyFuel : Nat → JVal → String
  | 0, _ => ""
  | _ + 1, .jnull => "null"
  | _ + 1, .jbool true => "true"
  | _ + 1, .jbool false => "false"
  | _ + 1, .jnum n => toString n
  | _ + 1, .jstr s => "\"" ++ s ++ "\""
  | fuel + 1, .jarr xs =>
      "[" ++ String.intercalate "," (xs.map fun x => JVal.stringifyFuel fuel x) ++ "]"
  | fuel + 1, .jobj fs =>
      "\x7b" ++ String.intercalate ","
        (fs.map fun kv => "\"" ++ kv.1 ++ "\":" ++ JVal.stringifyFuel fuel kv.2) ++ "\x7d"

def JVal.stringify (j : JVal) : String := JVal.stringifyFuel 100 j

/-- Numeric token counts read from usage metadata (`x || 0`). -/
def numOrZero : Option JVal → Nat
  | some (.jnum n) => if n = 0 then 0 else n.toNat
  | _ => 0

/-! ## Options objects and JS spread semantics -/

/-- One field of a JS options object: `none` = key absent, `some none` = key
present with value `undefined`, `some (some v)` = key present with value `v`.
The distinction matters because object spread copies a present key even when
its value is `undefined`. -/
abbrev JsField (α : Type) := Option (Option α)

/-- Reading a field (property access): an absent key and a present
`undefined` key are indistinguishable. -/
def JsField.read {α : Type} (f : JsField α) : Option α := f.join

/-- Object spread `\x7b ...base, ...upd \x7d` at a single key. -/
def JsField.ovr {α : Type} (base upd : JsField α) : JsField α :=
  match upd with
  | none => base
  | some v => some v

/-- JS truthiness of an optional string (the empty string is falsy). -/
def strTruthy : Option String → Bool
  | some s => s ≠ ""
  | none => false

/-- The `LLMClientOptions` interface of base-llm-client.ts, with key-presence
tracked per field.  `providerName` belongs to `CustomClientOptions`; it is
carried here so that one record type serves all five clients (the base class
ignores it). -/
structure LLMClientOptions where
  model : JsField String
  temperature : JsField Rat
  maxTokens : JsField Nat
  apiKey : JsField String
  endpoint : JsField String
  providerName : JsField String

/-- The empty object literal. -/
def emptyOpts : LLMClientOptions :=
  ⟨none, none, none, none, none, none⟩

/-- Object spread over whole options objects. -/
def LLMClientOptions.spread (base upd : LLMClientOptions) : LLMClientOptions :=
  { model := JsField.ovr base.model upd.model
    temperature := JsField.ovr base.temperature upd.temperature
    maxTokens := JsField.ovr base.maxTokens upd.maxTokens
    apiKey := JsField.ovr base.apiKey upd.apiKey
    endpoint := JsField.ovr base.endpoint upd.endpoint
    providerName := JsField.ovr base.providerName upd.providerName }

/-- BaseLLMClient constructor body:
`this.options = { temperature: 0.5, maxTokens: 500, ...options }`. -/
def BaseLLMClient.initOptions (options : LLMClientOptions) : LLMClientOptions :=
  LLMClientOptions.spread
    { emptyOpts with temperature := some (some (1/2 : Rat)), maxTokens := some (some 500) }
    options

/-! ## Common result and error shapes -/

structure TokenUsage where
  promptTokens : Nat
  completionTokens : Nat
  totalTokens : Nat

/-- Usage of a completion result: most clients pass the vendor's raw usage
object through (`parsedResponse.usage || {}`); Gemini constructs the
token-count record itself. -/
inductive UsageInfo where
  | passthrough (raw : JVal)
  | counted (u : TokenUsage)

structure LLMCompletionResult where
  text : String
  usage : UsageInfo

/-- The error value produced by `BaseLLMClient.createError` (the optional
raw-details payload is not modelled; no claim concerns it). -/
structure LLMError where
  message : String
  status : Option Nat

/-- Usage passthrough: `parsedResponse.usage` with an empty-object fallback. -/
def usagePassthrough (parsed : JVal) : UsageInfo :=
  match parsed.getF "usage" with
  | some u => if u.truthy then .passthrough u else .passthrough (.jobj [])
  | none => .passthrough (.jobj [])

/-- JS `String(error)` for an `Error` object: `"Error: " ++ message`. -/
def errDisplay (msg : String) : String := "Error: " ++ msg

/-- The HTTP response visible to a client: the numeric status and the parsed
body (`none` when the body is not valid JSON).  The curl-based clients
(OpenAI, Anthropic, Gemini) receive only the printed body and never observe
`status`. -/
structure HttpResponse where
  status : Nat
  body : Option JVal

/-- The guard `!choices || choices.length === 0` of local-llm-client.ts and
custom-llm-client.ts.  Values other than arrays and strings have no `length`
property, and `undefined === 0` is false, so truthy non-array values pass. -/
def noChoices : Option JVal → Bool
  | none => true
  | some (.jarr xs) => xs.isEmpty
  | some (.jstr s) => s = ""
  | some j => !j.truthy

/-- Element `choices[0]` after the `noChoices` guard failed.  For a nonempty string
JS yields its first character, all of whose property reads are `undefined`
(reproduced by `jnull`); for other truthy non-array values `choices[0]` is
`undefined` and the subsequent property read throws a `TypeError` (engine
text, not relied upon by any theorem). -/
def choiceZero : Option JVal → Except LLMError JVal
  | some (.jarr (x :: _)) => .ok x
  | some (.jstr _) => .ok .jnull
  | _ => .error ⟨"Cannot read properties of undefined", none⟩

/-- The wire shape `{ model, prompt, max_tokens, temperature }` shared by the
completions-style requests.  A field holding `none` models a property whose
value is `undefined`, which `JSON.stringify` omits from the serialized body. -/
structure WireRequest where
  model : Option String
  prompt : String
  max_tokens : Option Nat
  temperature : Option Rat

/-! ## BaseLLMClient.sendLLMRequest (part of base-llm-client.ts)

The returned `Nat` counts invocations of `HttpClient.post`; the single
response the transport would produce is the `resp` argument. -/

def BaseLLMClient.sendLLMRequest (clientName : String)
    (parse : HttpResponse → Except LLMError LLMCompletionResult)
    (options : LLMClientOptions) (resp : HttpResponse) :
    Except LLMError LLMCompletionResult × Nat :=
  -- if (!endpoint) throw createError('API endpoint not specified', 400)
  -- (raised before the try block, hence never re-wrapped, and before any post)
  if !(strTruthy options.endpoint.read) then
    (.error ⟨"API endpoint not specified", some 400⟩, 0)
  else
    let step : Except LLMError LLMCompletionResult :=
      if resp.status ≥ 400 then
        .error ⟨"API returned error status: " ++ toString resp.status, some resp.status⟩
      else parse resp
    match step with
    | .ok r => (.ok r, 1)
    | .error e =>
        -- catch: createError(`Error calling NAME API: MESSAGE`, error.status || 500)
        (.error ⟨"Error calling " ++ clientName ++ " API: " ++ e.message,
          some (match e.status with | some s => if s = 0 then 500 else s | none => 500)⟩, 1)

/-! ## OpenAILLMClient (openai-llm-client.ts, curl-based, chat-capable) -/

namespace OpenAILLMClient

def DEFAULT_MODEL : String := "gpt-3.5-turbo-instruct"

def DEFAULT_ENDPOINT : String := "https://api.openai.com/v1/completions"

def CHAT_ENDPOINT : String := "https://api.openai.com/v1/chat/completions"

def CHAT_MODELS : List String :=
  ["gpt-4", "gpt-4-turbo", "gpt-4o", "gpt-3.5-turbo", "gpt-4o-2024"]

/-- Constructor, total part:
`super({ model: DEFAULT_MODEL, endpoint: DEFAULT_ENDPOINT, ...options })`. -/
def initState (options : LLMClientOptions) : LLMClientOptions :=
  BaseLLMClient.initOptions (LLMClientOptions.spread
    { emptyOpts with model := some (some DEFAULT_MODEL),
                     endpoint := some (some DEFAULT_ENDPOINT) } options)

/-- Full constructor: throws `'OpenAI API key is required'` on a falsy key. -/
def make (options : LLMClientOptions) : Except String LLMClientOptions :=
  if strTruthy options.apiKey.read then .ok (initState options)
  else .error "OpenAI API key is required"

/-- Chat detection: CHAT_MODELS.some of a lowercased substring test. -/
def isChatModel (model : String) : Bool :=
  CHAT_MODELS.any fun chatModel => strContains (lowerStr model) (lowerStr chatModel)

inductive RequestShape where
  | chatShape (model : Option String) (userContent : String)
      (max_tokens : Option Nat) (temperature : Option Rat)
  | completionsShape (body : WireRequest)

def RequestShape.isChatShape : RequestShape → Bool
  | .chatShape _ _ _ _ => true
  | .completionsShape _ => false

/-- The request body built by `getCompletion` (chat shape with a single
user-role message, or the flat completions shape). -/
def requestBody (options : LLMClientOptions) (prompt : String) : RequestShape :=
  if isChatModel (options.model.read.getD "") then
    .chatShape options.model.read prompt options.maxTokens.read options.temperature.read
  else
    .completionsShape ⟨options.model.read, prompt, options.maxTokens.read, options.temperature.read⟩

/-- Completion call, modelled without per-call override options.
The curl transport prints the response body regardless of the HTTP status,
and the method never inspects the status (`resp.status` is unused). -/
def getCompletion (opts : LLMClientOptions) (_prompt : String) (resp : HttpResponse) :
    Except String LLMCompletionResult :=
  let usesChatAPI := isChatModel (opts.model.read.getD "")
  let inner : Except String LLMCompletionResult :=
    match resp.body with
    | none => .error "SyntaxError: Unexpected end of JSON input"
    | some parsed =>
      if truthyO (parsed.getF "error") then
        .error (errDisplay ("OpenAI API error: " ++
          displayO ((parsed.getF "error").bind fun e => e.getF "message")))
      else if truthyLen (parsed.getF "choices") then
        let c0 := idx0 (parsed.getF "choices")
        if usesChatAPI then
          let contentO := (c0.getF "message").bind fun m => m.getF "content"
          if truthyO (c0.getF "message") && truthyO contentO then
            match contentO with
            | some (.jstr s) => .ok ⟨trimStr s, usagePassthrough parsed⟩
            | _ => .error "TypeError: trim is not a function"
          else .error (errDisplay "Invalid chat response format from OpenAI API")
        else
          let textO := c0.getF "text"
          if truthyO textO then
            match textO with
            | some (.jstr s) => .ok ⟨trimStr s, usagePassthrough parsed⟩
            | _ => .error "TypeError: trim is not a function"
          else .error (errDisplay "Invalid completions response format from OpenAI API")
      else .error (errDisplay "Invalid response format from OpenAI API")
  match inner with
  | .ok r => .ok r
  | .error m =>
      .error ("Error calling OpenAI API: " ++
        errDisplay ("Error parsing OpenAI response: " ++ m))

def getName : String := "OpenAI"

def isConfigured (o : LLMClientOptions) : Bool := strTruthy o.apiKey.read

end OpenAILLMClient

/-! ## AnthropicLLMClient (anthropic-llm-client.ts, curl-based) -/

namespace AnthropicLLMClient

def DEFAULT_MODEL : String := "claude-3-sonnet-20240229"

def DEFAULT_ENDPOINT : String := "https://api.anthropic.com/v1/messages"

def initState (options : LLMClientOptions) : LLMClientOptions :=
  BaseLLMClient.initOptions (LLMClientOptions.spread
    { emptyOpts with model := some (some DEFAULT_MODEL),
                     endpoint := some (some DEFAULT_ENDPOINT) } options)

def make (options : LLMClientOptions) : Except String LLMClientOptions :=
  if strTruthy options.apiKey.read then .ok (initState options)
  else .error "Anthropic API key is required"

/-- Filter predicate on content blocks: strict equality of the type field with "text". -/
def isTextBlock (item : JVal) : Bool :=
  match item.getF "type" with
  | some (.jstr s) => s = "text"
  | _ => false

/-- Completion call, modelled without per-call override options.
The curl transport never surfaces the HTTP status (`resp.status` is unused). -/
def getCompletion (_opts : LLMClientOptions) (_prompt : String) (resp : HttpResponse) :
    Except String LLMCompletionResult :=
  let inner : Except String LLMCompletionResult :=
    match resp.body with
    | none => .error "SyntaxError: Unexpected end of JSON input"
    | some parsed =>
      if truthyO (parsed.getF "error") then
        .error (errDisplay ("Anthropic API error: " ++
          displayO ((parsed.getF "error").bind fun e => e.getF "message")))
      else if truthyLen (parsed.getF "content") then
        match parsed.getF "content" with
        | some (.jarr items) =>
            let text := String.intercalate "\n"
              ((items.filter isTextBlock).map fun item => displayForJoin (item.getF "text"))
            .ok ⟨trimStr text, usagePassthrough parsed⟩
        | _ => .error "TypeError: filter is not a function"
      else .error (errDisplay "Invalid response format from Anthropic API")
  match inner with
  | .ok r => .ok r
  | .error m =>
      .error ("Error calling Anthropic API: " ++
        errDisplay ("Error parsing Anthropic response: " ++ m))

def getName : String := "Anthropic Claude"

def isConfigured (o : LLMClientOptions) : Bool := strTruthy o.apiKey.read

end AnthropicLLMClient

/-! ## GeminiLLMClient (gemini-llm-client.ts, curl-based) -/

namespace GeminiLLMClient

def DEFAULT_MODEL : String := "gemini-1.5-flash"

def DEFAULT_ENDPOINT : String := "https://generativelanguage.googleapis.com/v1"

def initState (options : LLMClientOptions) : LLMClientOptions :=
  BaseLLMClient.initOptions (LLMClientOptions.spread
    { emptyOpts with model := some (some DEFAULT_MODEL),
                     endpoint := some (some DEFAULT_ENDPOINT) } options)

def make (options : LLMClientOptions) : Except String LLMClientOptions :=
  if strTruthy options.apiKey.read then .ok (initState options)
  else .error "Google API key is required"

/-- Model-name formatting returns its argument unchanged on both branches (the
non-prefixed branch interpolates the bare name). -/
def formatModelName (modelName : String) : String :=
  if startsWithL "models/".toList modelName.toList then modelName else modelName

/-- Completion call, modelled without per-call override options.
curl writes the response body to a temp file which is then read back and
parsed.  Any throw during that block — vendor error object, wrong shape,
unparsable body — is re-raised inside the file-reading `try`, so the
`catch (readError)` replaces it with `'Failed to read API response'`; the
original message (including any vendor error text) is discarded.  The
success value's usage is reconstructed as prompt + candidates token counts. -/
def getCompletion (_opts : LLMClientOptions) (_prompt : String) (resp : HttpResponse) :
    Except String LLMCompletionResult :=
  let attempt : Except Unit LLMCompletionResult :=
    match resp.body with
    | none => .error ()
    | some parsed =>
      if truthyO (parsed.getF "error") then .error ()
      else
        let c0 := idx0 (parsed.getF "candidates")
        let partsO := (c0.getF "content").bind fun c => c.getF "parts"
        if truthyLen (parsed.getF "candidates") && truthyO (c0.getF "content")
            && truthyLen partsO then
          match partsO with
          | some (.jarr parts) =>
              let text := String.intercalate "\n"
                (((parts.filter fun part => truthyO (part.getF "text")).map
                  fun part => displayForJoin (part.getF "text")))
              let meta := parsed.getF "usageMetadata"
              let p := numOrZero (meta.bind fun m => m.getF "promptTokenCount")
              let c := numOrZero (meta.bind fun m => m.getF "candidatesTokenCount")
              .ok ⟨trimStr text, .counted ⟨p, c, p + c⟩⟩
          | _ => .error ()
        else .error ()
  match attempt with
  | .ok r => .ok r
  | .error _ => .error ("Error calling Gemini API: " ++ errDisplay "Failed to read API response")

def getName : String := "Google Gemini"

def isConfigured (o : LLMClientOptions) : Bool := strTruthy o.apiKey.read

end GeminiLLMClient

/-! ## LocalLLMClient (local-llm-client.ts, HttpClient-based) -/

namespace LocalLLMClient

def DEFAULT_MODEL : String := "llama-3.2-3b-instruct"

def DEFAULT_ENDPOINT : String := "http://127.0.0.1:1234/v1/completions"

/-- Constructor (never throws):
`super({ model: DEFAULT_MODEL, endpoint: DEFAULT_ENDPOINT, ...options })`. -/
def make (options : LLMClientOptions) : LLMClientOptions :=
  BaseLLMClient.initOptions (LLMClientOptions.spread
    { emptyOpts with model := some (some DEFAULT_MODEL),
                     endpoint := some (some DEFAULT_ENDPOINT) } options)

def getName : String := "Local LLM"

def formatRequestBody (options : LLMClientOptions) (prompt : String) : WireRequest :=
  ⟨options.model.read, prompt, options.maxTokens.read, options.temperature.read⟩

def parseResponse (resp : HttpResponse) : Except LLMError LLMCompletionResult :=
  let inner : Except LLMError LLMCompletionResult :=
    match resp.body with
    | none => .error ⟨"Unexpected end of JSON input", none⟩
    | some parsed =>
      if truthyO (parsed.getF "error") then
        let errObj := (parsed.getF "error").getD .jnull
        let msgO := errObj.getF "message"
        let msg := if truthyO msgO then displayO msgO else errObj.stringify
        let st := match errObj.getF "status" with
          | some (.jnum n) => if n = 0 then 400 else n.toNat
          | _ => 400
        .error ⟨"Local LLM API error: " ++ msg, some st⟩
      else if noChoices (parsed.getF "choices") then
        .error ⟨"Invalid response format from Local LLM API: no choices returned", some 400⟩
      else
        match choiceZero (parsed.getF "choices") with
        | .error e => .error e
        | .ok c0 =>
          let textO := c0.getF "text"
          if !(truthyO textO) then
            .error ⟨"No text content found in Local LLM response", some 400⟩
          else
            match textO with
            | some (.jstr s) => .ok ⟨trimStr s, usagePassthrough parsed⟩
            | _ => .error ⟨"trim is not a function", none⟩
  -- catch: own errors (message containing 'Local LLM API') are re-thrown
  -- unchanged; anything else is wrapped as a parse error with status 500.
  match inner with
  | .ok r => .ok r
  | .error e =>
      if strTruthy (some e.message) && strContains e.message "Local LLM API" then .error e
      else .error ⟨"Error parsing Local LLM response: " ++ e.message, some 500⟩

/-- Completion call, modelled without per-call override options. -/
def getCompletion (opts : LLMClientOptions) (_prompt : String) (resp : HttpResponse) :
    Except LLMError LLMCompletionResult × Nat :=
  BaseLLMClient.sendLLMRequest getName parseResponse opts resp

def isConfigured (o : LLMClientOptions) : Bool := strTruthy o.endpoint.read

end LocalLLMClient

/-! ## CustomLLMClient (custom-llm-client.ts, HttpClient-based) -/

/-- A constructed custom client: its merged options plus the provider name. -/
structure CustomState where
  options : LLMClientOptions
  providerName : String

namespace CustomLLMClient

/-- Constructor: `super({ ...options })` (no class-level defaults), then the
two credential checks, then `providerName = options.providerName || 'Custom
Provider'`. -/
def make (options : LLMClientOptions) : Except String CustomState :=
  let st := BaseLLMClient.initOptions options
  if !(strTruthy options.apiKey.read) then .error "API key is required for custom provider"
  else if !(strTruthy options.endpoint.read) then .error "Endpoint is required for custom provider"
  else .ok ⟨st, match options.providerName.read with
    | some s => if s = "" then "Custom Provider" else s
    | none => "Custom Provider"⟩

def getName (st : CustomState) : String := st.providerName

def formatRequestBody (options : LLMClientOptions) (prompt : String) : WireRequest :=
  ⟨options.model.read, prompt, options.maxTokens.read, options.temperature.read⟩

def parseResponse (providerName : String) (resp : HttpResponse) :
    Except LLMError LLMCompletionResult :=
  let inner : Except LLMError LLMCompletionResult :=
    match resp.body with
    | none => .error ⟨"Unexpected end of JSON input", none⟩
    | some parsed =>
      if truthyO (parsed.getF "error") then
        let errObj := (parsed.getF "error").getD .jnull
        let msgO := errObj.getF "message"
        let msg := if truthyO msgO then displayO msgO else errObj.stringify
        let st := match errObj.getF "status" with
          | some (.jnum n) => if n = 0 then 400 else n.toNat
          | _ => 400
        .error ⟨providerName ++ " API error: " ++ msg, some st⟩
      else if noChoices (parsed.getF "choices") then
        .error ⟨"Invalid response format from " ++ providerName ++ " API: no choices returned",
          some 400⟩
      else
        match choiceZero (parsed.getF "choices") with
        | .error e => .error e
        | .ok c0 =>
          -- text = choices[0].text?.trim() || choices[0].message?.content?.trim()
          let t1 : Except LLMError (Option String) := match c0.getF "text" with
            | some (.jstr s) => .ok (some (trimStr s))
            | some .jnull => .ok none
            | none => .ok none
            | some _ => .error ⟨"trim is not a function", none⟩
          match t1 with
          | .error e => .error e
          | .ok o1 =>
            if (match o1 with | some s => s ≠ "" | none => false : Bool) then
              .ok ⟨o1.getD "", usagePassthrough parsed⟩
            else
              let t2 : Except LLMError (Option String) :=
                match (c0.getF "message").bind fun m => m.getF "content" with
                | some (.jstr s) => .ok (some (trimStr s))
                | some .jnull => .ok none
                | none => .ok none
                | some _ => .error ⟨"trim is not a function", none⟩
              match t2 with
              | .error e => .error e
              | .ok (some s) =>
                  if s ≠ "" then .ok ⟨s, usagePassthrough parsed⟩
                  else .error ⟨"No text content found in " ++ providerName ++ " response", some 400⟩
              | .ok none =>
                  .error ⟨"No text content found in " ++ providerName ++ " response", some 400⟩
  match inner with
  | .ok r => .ok r
  | .error e =>
      if strTruthy (some e.message) && strContains e.message (providerName ++ " API") then .error e
      else .error ⟨"Error parsing " ++ providerName ++ " response: " ++ e.message, some 500⟩

/-- Completion call, modelled without per-call override options. -/
def getCompletion (st : CustomState) (_prompt : String) (resp : HttpResponse) :
    Except LLMError LLMCompletionResult × Nat :=
  BaseLLMClient.sendLLMRequest (getName st) (parseResponse st.providerName) st.options resp

def isConfigured (st : CustomState) : Bool :=
  strTruthy st.options.apiKey.read && strTruthy st.options.endpoint.read

end CustomLLMClient

/-! ## LLMClientFactory (llm-client-factory.ts)

The configuration is loaded once from environment variables; every key of
the `this.config` object literal is present (possibly with the value
`undefined`), so the stored configuration is a plain record of optional
values.  `provider` is typed `LLMProviderType` in TS but holds whatever
string the environment supplied, so it is modelled as `String`.  A
`Partial<LLMConfig>` override, in contrast, tracks key presence per field. -/

structure LLMConfig where
  provider : String
  model : Option String
  temperature : Option Rat
  maxTokens : Option Nat
  openaiApiKey : Option String
  openaiEndpoint : Option String
  openaiDefaultModel : Option String
  anthropicApiKey : Option String
  anthropicEndpoint : Option String
  anthropicDefaultModel : Option String
  geminiApiKey : Option String
  geminiEndpoint : Option String
  geminiDefaultModel : Option String
  localEndpoint : Option String
  localModel : Option String
  customProviderName : Option String
  customApiKey : Option String
  customEndpoint : Option String
  customDefaultModel : Option String

/-- Override object (Partial of LLMConfig): each key may be absent, present with `undefined`,
or present with a value. -/
structure LLMConfigOverride where
  provider : JsField String
  model : JsField String
  temperature : JsField Rat
  maxTokens : JsField Nat
  openaiApiKey : JsField String
  openaiEndpoint : JsField String
  openaiDefaultModel : JsField String
  anthropicApiKey : JsField String
  anthropicEndpoint : JsField String
  anthropicDefaultModel : JsField String
  geminiApiKey : JsField String
  geminiEndpoint : JsField String
  geminiDefaultModel : JsField String
  localEndpoint : JsField String
  localModel : JsField String
  customProviderName : JsField String
  customApiKey : JsField String
  customEndpoint : JsField String
  customDefaultModel : JsField String

/-- The default (empty object) override argument of `createClient`. -/
def noOverride : LLMConfigOverride :=
  ⟨none, none, none, none, none, none, none, none, none, none,
   none, none, none, none, none, none, none, none, none⟩

/-- Merge at a single config key (the base key is always
present in the loaded configuration). -/
def mergeField {α : Type} (base : Option α) (upd : JsField α) : Option α :=
  match upd with
  | none => base
  | some v => v

/-- The merged view after `const config = { ...this.config, ...overrideConfig }`.
`provider` becomes optional because an override may set it to `undefined`. -/
structure MergedLLMConfig where
  provider : Option String
  model : Option String
  temperature : Option Rat
  maxTokens : Option Nat
  openaiApiKey : Option String
  openaiEndpoint : Option String
  openaiDefaultModel : Option String
  anthropicApiKey : Option String
  anthropicEndpoint : Option String
  anthropicDefaultModel : Option String
  geminiApiKey : Option String
  geminiEndpoint : Option String
  geminiDefaultModel : Option String
  localEndpoint : Option String
  localModel : Option String
  customProviderName : Option String
  customApiKey : Option String
  customEndpoint : Option String
  customDefaultModel : Option String

def mergeConfig (cfg : LLMConfig) (ov : LLMConfigOverride) : MergedLLMConfig :=
  { provider := mergeField (some cfg.provider) ov.provider
    model := mergeField cfg.model ov.model
    temperature := mergeField cfg.temperature ov.temperature
    maxTokens := mergeField cfg.maxTokens ov.maxTokens
    openaiApiKey := mergeField cfg.openaiApiKey ov.openaiApiKey
    openaiEndpoint := mergeField cfg.openaiEndpoint ov.openaiEndpoint
    openaiDefaultModel := mergeField cfg.openaiDefaultModel ov.openaiDefaultModel
    anthropicApiKey := mergeField cfg.anthropicApiKey ov.anthropicApiKey
    anthropicEndpoint := mergeField cfg.anthropicEndpoint ov.anthropicEndpoint
    anthropicDefaultModel := mergeField cfg.anthropicDefaultModel ov.anthropicDefaultModel
    geminiApiKey := mergeField cfg.geminiApiKey ov.geminiApiKey
    geminiEndpoint := mergeField cfg.geminiEndpoint ov.geminiEndpoint
    geminiDefaultModel := mergeField cfg.geminiDefaultModel ov.geminiDefaultModel
    localEndpoint := mergeField cfg.localEndpoint ov.localEndpoint
    localModel := mergeField cfg.localModel ov.localModel
    customProviderName := mergeField cfg.customProviderName ov.customProviderName
    customApiKey := mergeField cfg.customApiKey ov.customApiKey
    customEndpoint := mergeField cfg.customEndpoint ov.customEndpoint
    customDefaultModel := mergeField cfg.customDefaultModel ov.customDefaultModel }

/-- The five constructed client variants returned by the factory. -/
inductive LLMClient where
  | openaiClient (opts : LLMClientOptions)
  | anthropicClient (opts : LLMClientOptions)
  | geminiClient (opts : LLMClientOptions)
  | customClient (st : CustomState)
  | localClient (opts : LLMClientOptions)

namespace LLMClientFactory

/-- Model resolution `getModelForProvider(config, provider)`: the general `model` setting,
when truthy, wins over the provider-specific default model. -/
def getModelForProvider (config : MergedLLMConfig) (provider : String) : Option String :=
  if strTruthy config.model then config.model
  else
    if provider = "openai" then config.openaiDefaultModel
    else if provider = "anthropic" then config.anthropicDefaultModel
    else if provider = "gemini" then config.geminiDefaultModel
    else if provider = "custom" then config.customDefaultModel
    else if provider = "local" then config.localModel
    else none

/-- Client construction `createClient(overrideConfig)`: merges the override over the stored
configuration, validates the selected variant's credentials, and constructs
the client.  Every option passed to a client constructor is a present key
(`some …`), even when its value is `undefined` — this is what lets an unset
configuration field override a client class's built-in default.
The function performs no HTTP traffic (in the source, neither the factory
nor any client constructor touches the transport). -/
def createClient (stored : LLMConfig) (overrideConfig : LLMConfigOverride) :
    Except String LLMClient :=
  let config := mergeConfig stored overrideConfig
  if config.provider = some "openai" then
    if !(strTruthy config.openaiApiKey) then
      .error "OpenAI API key is required for OpenAI provider"
    else
      match OpenAILLMClient.make
        { model := some (getModelForProvider config "openai")
          temperature := some config.temperature
          maxTokens := some config.maxTokens
          apiKey := some config.openaiApiKey
          endpoint := some config.openaiEndpoint
          providerName := none } with
      | .ok o => .ok (.openaiClient o)
      | .error e => .error e
  else if config.provider = some "anthropic" then
    if !(strTruthy config.anthropicApiKey) then
      .error "Anthropic API key is required for Anthropic provider"
    else
      match AnthropicLLMClient.make
        { model := some (getModelForProvider config "anthropic")
          temperature := some config.temperature
          maxTokens := some config.maxTokens
          apiKey := some config.anthropicApiKey
          endpoint := some config.anthropicEndpoint
          providerName := none } with
      | .ok o => .ok (.anthropicClient o)
      | .error e => .error e
  else if config.provider = some "gemini" then
    if !(strTruthy config.geminiApiKey) then
      .error "Google API key is required for Gemini provider"
    else
      match GeminiLLMClient.make
        { model := some (getModelForProvider config "gemini")
          temperature := some config.temperature
          maxTokens := some config.maxTokens
          apiKey := some config.geminiApiKey
          endpoint := some config.geminiEndpoint
          providerName := none } with
      | .ok o => .ok (.geminiClient o)
      | .error e => .error e
  else if config.provider = some "custom" then
    if !(strTruthy config.customApiKey) then
      .error "API key is required for custom provider"
    else if !(strTruthy config.customEndpoint) then
      .error "Endpoint is required for custom provider"
    else
      match CustomLLMClient.make
        { model := some (getModelForProvider config "custom")
          temperature := some config.temperature
          maxTokens := some config.maxTokens
          apiKey := some config.customApiKey
          endpoint := some config.customEndpoint
          providerName := some config.customProviderName } with
      | .ok st => .ok (.customClient st)
      | .error e => .error e
  else
    -- case 'local' and the default case
    .ok (.localClient (LocalLLMClient.make
      { model := some (getModelForProvider config "local")
        temperature := some config.temperature
        maxTokens := some config.maxTokens
        apiKey := none
        endpoint := some config.localEndpoint
        providerName := none }))

end LLMClientFactory

/-! ## Projections used in theorem statements -/

/-- The options record held by a constructed client. -/
def LLMClient.optionsOf : LLMClient → LLMClientOptions
  | .openaiClient o => o
  | .anthropicClient o => o
  | .geminiClient o => o
  | .customClient st => st.options
  | .localClient o => o

/-- Whether a factory result is a successfully constructed Local client. -/
def isLocalResult : Except String LLMClient → Bool
  | .ok (.localClient _) => true
  | _ => false

/-- The effective `model` of a factory result, read off the client's options. -/
def resultModel : Except String LLMClient → Option (Option String)
  | .ok c => some c.optionsOf.model.read
  | .error _ => none

/-- The effective `temperature` of a factory result. -/
def resultTemperature : Except String LLMClient → Option (Option Rat)
  | .ok c => some c.optionsOf.temperature.read
  | .error _ => none

/-- The effective `maxTokens` of a factory result. -/
def resultMaxTokens : Except String LLMClient → Option (Option Nat)
  | .ok c => some c.optionsOf.maxTokens.read
  | .error _ => none

/-- The effective `endpoint` of a factory result. -/
def resultEndpoint : Except String LLMClient → Option (Option String)
  | .ok c => some c.optionsOf.endpoint.read
  | .error _ => none

/-- The message of an errored curl-based completion, `none` on success. -/
def errMsgS : Except String LLMCompletionResult → Option String
  | .error m => some m
  | .ok _ => none

/-- The message of an errored HttpClient-based completion, `none` on success. -/
def errMsgE : Except LLMError LLMCompletionResult × Nat → Option String
  | (.error e, _) => some e.message
  | (.ok _, _) => none

/-! ## Concrete fixtures used by witnesses and counterexamples -/

/-- A stored configuration with the given provider tag and every other
environment variable unset. -/
def bareConfig (provider : String) : LLMConfig :=
  ⟨provider, none, none, none, none, none, none, none, none, none,
   none, none, none, none, none, none, none, none, none⟩

/-- Only the global model layer set (plus the key the openai branch requires). -/
def cfgGlobalModel : LLMConfig :=
  { bareConfig "openai" with model := some "global-model", openaiApiKey := some "k" }

/-- Only the provider-default model layer set. -/
def cfgOpenaiDefault : LLMConfig :=
  { bareConfig "openai" with openaiDefaultModel := some "openai-default", openaiApiKey := some "k" }

/-- Only the per-call override model layer set. -/
def ovOnlyModel : LLMConfigOverride :=
  { noOverride with model := some (some "override-model") }

/-- Only the local provider-default model layer set. -/
def cfgLocalModel : LLMConfig :=
  { bareConfig "local" with localModel := some "local-default" }

/-- Options whose `endpoint` key is present with the value `undefined`,
as the factory produces for an unset configuration field. -/
def optsUndefEndpoint : LLMClientOptions :=
  { emptyOpts with endpoint := some none }

/-- Options selecting a non-chat OpenAI model. -/
def openaiCompletionsOpts : LLMClientOptions :=
  { emptyOpts with apiKey := some (some "k"), model := some (some "davinci") }

/-- Options carrying only an API key. -/
def keyOnlyOpts : LLMClientOptions :=
  { emptyOpts with apiKey := some (some "k") }

/-- A well-formed completions-style success body. -/
def openaiSuccessBody : JVal :=
  .jobj [("choices", .jarr [.jobj [("text", .jstr " hi ")]])]

/-- A vendor error-object body with message "boom". -/
def vendorErrBody : JVal :=
  .jobj [("error", .jobj [("message", .jstr "boom")])]

/-- A well-formed Gemini success body with no usage metadata. -/
def geminiOkBody : JVal :=
  .jobj [("candidates", .jarr
    [.jobj [("content", .jobj [("parts", .jarr [.jobj [("text", .jstr "hi")]])])]])]

/-- A configured custom client state. -/
def customSt : CustomState :=
  ⟨BaseLLMClient.initOptions
    { emptyOpts with apiKey := some (some "k"), endpoint := some (some "http://e") },
   "Custom Provider"⟩

/-! ## Lemmas about the string helpers -/

theorem startsWithL_trans (p : List Char) : ∀ n s, startsWithL p n = true →
    startsWithL n s = true → startsWithL p s = true := by
  induction p with
  | nil => intro n s _ _; rfl
  | cons a as ih =>
    intro n s hpn hns
    cases n with
    | nil => simp [startsWithL] at hpn
    | cons b bs =>
      cases s with
      | nil => simp [startsWithL] at hns
      | cons c cs =>
        simp only [startsWithL, Bool.and_eq_true, decide_eq_true_eq] at hpn hns ⊢
        exact ⟨hpn.1.trans hns.1, ih bs cs hpn.2 hns.2⟩

theorem startsWithL_nil_right (n : List Char) (h : startsWithL n [] = true) : n = [] := by
  cases n with
  | nil => rfl
  | cons a as => simp [startsWithL] at h

theorem occursIn_nil_needle (h : List Char) : occursIn [] h = true := by
  induction h with
  | nil => rfl
  | cons c rest ih => simp [occursIn, startsWithL]

theorem occursIn_mono (p n : List Char) (hpn : startsWithL p n = true) :
    ∀ h, occursIn n h = true → occursIn p h = true := by
  intro h
  induction h with
  | nil =>
    intro hocc
    simp only [occursIn] at hocc ⊢
    have hn := startsWithL_nil_right n hocc
    subst hn
    have hp := startsWithL_nil_right p hpn
    subst hp
    rfl
  | cons c rest ih =>
    intro hocc
    simp only [occursIn, Bool.or_eq_true] at hocc ⊢
    rcases hocc with h1 | h2
    · exact Or.inl (startsWithL_trans p n (c :: rest) hpn h1)
    · exact Or.inr (ih h2)

theorem startsWithL_refl (l : List Char) : startsWithL l l = true := by
  induction l with
  | nil => rfl
  | cons a as ih => simp [startsWithL, ih]

theorem startsWithL_extend (n : List Char) : ∀ h t, startsWithL n h = true →
    startsWithL n (h ++ t) = true := by
  induction n with
  | nil => intro h t _; rfl
  | cons a as ih =>
    intro h t hn
    cases h with
    | nil => simp [startsWithL] at hn
    | cons b bs =>
      simp only [startsWithL, Bool.and_eq_true, decide_eq_true_eq, List.cons_append] at hn ⊢
      exact ⟨hn.1, ih bs t hn.2⟩

theorem occursIn_append_right (n t : List Char) (ht : occursIn n t = true) :
    ∀ h, occursIn n (h ++ t) = true := by
  intro h
  induction h with
  | nil => simpa using ht
  | cons c rest ih =>
    simp only [List.cons_append, occursIn, Bool.or_eq_true]
    exact Or.inr ih

theorem occursIn_append_left (n : List Char) : ∀ h t, occursIn n h = true →
    occursIn n (h ++ t) = true := by
  intro h
  induction h with
  | nil =>
    intro t hocc
    simp only [occursIn] at hocc
    have hn := startsWithL_nil_right n hocc
    subst hn
    simpa using occursIn_nil_needle t
  | cons c rest ih =>
    intro t hocc
    simp only [occursIn, Bool.or_eq_true, List.cons_append] at hocc ⊢
    rcases hocc with h1 | h2
    · exact Or.inl (startsWithL_extend n (c :: rest) t h1)
    · exact Or.inr (ih t h2)

theorem occursIn_self (l : List Char) : occursIn l l = true := by
  cases l with
  | nil => rfl
  | cons a as => simp [occursIn, startsWithL_refl]

theorem strContains_append_self (a b : String) : strContains (a ++ b) b = true := by
  simp only [strContains, String.toList, String.data_append]
  exact occursIn_append_right b.data b.data (occursIn_self b.data) a.data

theorem strContains_append_of_left (a b n : String) (h : strContains a n = true) :
    strContains (a ++ b) n = true := by
  simp only [strContains, String.toList, String.data_append] at h ⊢
  exact occursIn_append_left n.data a.data b.data h

theorem strContains_append_of_right (a b n : String) (h : strContains b n = true) :
    strContains (a ++ b) n = true := by
  simp only [strContains, String.toList, String.data_append] at h ⊢
  exact occursIn_append_right n.data b.data h a.data

theorem JsField.ovr_none_left {α : Type} (x : JsField α) : JsField.ovr none x = x := by
  cases x <;> rfl

theorem startsWithL_append_both (a : List Char) : ∀ b c, startsWithL b c = true →
    startsWithL (a ++ b) (a ++ c) = true := by
  induction a with
  | nil => intro b c h; simpa using h
  | cons x xs ih =>
    intro b c h
    simp only [List.cons_append, startsWithL, Bool.and_eq_true, decide_eq_true_eq]
    exact ⟨trivial, ih b c h⟩

theorem occursIn_of_startsWith (n h : List Char) (hs : startsWithL n h = true) :
    occursIn n h = true := by
  cases h with
  | nil =>
    have := startsWithL_nil_right n hs
    subst this
    rfl
  | cons c rest => simp [occursIn, hs]

theorem str_append_ne_empty (a m : String) (ha : a ≠ "") : a ++ m ≠ "" := by
  intro h
  apply ha
  have hd : (a ++ m).data = ("" : String).data := by rw [h]
  simp only [String.data_append] at hd
  have := List.append_eq_nil.mp hd
  cases a with
  | mk data => cases data with
    | nil => rfl
    | cons c cs => simp at this

theorem str_append_ne_empty_right (a m : String) (hm : m ≠ "") : a ++ m ≠ "" := by
  intro h
  apply hm
  have hd : (a ++ m).data = ("" : String).data := by rw [h]
  simp only [String.data_append] at hd
  have h2 := (List.append_eq_nil.mp hd).2
  cases m with
  | mk data =>
    cases data with
    | nil => rfl
    | cons c cs => simp at h2

/-- A needle that is an initial segment of the haystack occurs in it. -/
theorem strContains_self_append (p rest : String) : strContains (p ++ rest) p = true := by
  simp only [strContains, String.toList, String.data_append]
  exact occursIn_of_startsWith p.data (p.data ++ rest.data)
    (startsWithL_extend p.data p.data rest.data (startsWithL_refl p.data))

/-! ## Claim theorems -/

/-- C1 (counterexample): the claim asserts that for the model name
"gpt-3.5-turbo-instruct" the completions-shaped path is used; in the code
`isChatModel` substring-matches "gpt-3.5-turbo" inside it, so the chat
path is selected and the request built for that model is chat-shaped. -/
theorem C1_counterexample :
    OpenAILLMClient.isChatModel "gpt-3.5-turbo-instruct" = true
    ∧ (OpenAILLMClient.requestBody
        { emptyOpts with apiKey := some (some "k"),
                         model := some (some "gpt-3.5-turbo-instruct") } "p").isChatShape
      = true := by
  exact ⟨by decide, by decide⟩

/-- C1 (amended): a model name is routed to the chat-shaped request path
exactly when it contains one of "gpt-4", "gpt-4-turbo", "gpt-4o",
"gpt-3.5-turbo" case-insensitively; the built request body is chat-shaped
exactly when `isChatModel` accepts the effective model; and in particular
"gpt-3.5-turbo-instruct" is routed to the chat-shaped path, not the
completions-shaped one. -/
theorem C1_openai_chat_routing (model : String) :
    (OpenAILLMClient.isChatModel model = true ↔
      (strContains (lowerStr model) "gpt-4" = true ∨
       strContains (lowerStr model) "gpt-4-turbo" = true ∨
       strContains (lowerStr model) "gpt-4o" = true ∨
       strContains (lowerStr model) "gpt-3.5-turbo" = true))
    ∧ (∀ opts prompt, (OpenAILLMClient.requestBody opts prompt).isChatShape =
        OpenAILLMClient.isChatModel (opts.model.read.getD ""))
    ∧ OpenAILLMClient.isChatModel "gpt-3.5-turbo-instruct" = true := by
  refine ⟨?_, ?_, by decide⟩
  · have e1 : lowerStr "gpt-4" = "gpt-4" := by decide
    have e2 : lowerStr "gpt-4-turbo" = "gpt-4-turbo" := by decide
    have e3 : lowerStr "gpt-4o" = "gpt-4o" := by decide
    have e4 : lowerStr "gpt-3.5-turbo" = "gpt-3.5-turbo" := by decide
    have e5 : lowerStr "gpt-4o-2024" = "gpt-4o-2024" := by decide
    constructor
    · intro h
      simp only [OpenAILLMClient.isChatModel, OpenAILLMClient.CHAT_MODELS, List.any_cons,
        List.any_nil, Bool.or_false, Bool.or_eq_true, e1, e2, e3, e4, e5] at h
      rcases h with h | h | h | h | h
      · exact Or.inl h
      · exact Or.inr (Or.inl h)
      · exact Or.inr (Or.inr (Or.inl h))
      · exact Or.inr (Or.inr (Or.inr h))
      · -- "gpt-4o-2024" contains "gpt-4o" as an initial segment
        refine Or.inr (Or.inr (Or.inl ?_))
        have hpn : startsWithL "gpt-4o".toList "gpt-4o-2024".toList = true := by decide
        exact occursIn_mono _ _ hpn _ h
    · intro h
      simp only [OpenAILLMClient.isChatModel, OpenAILLMClient.CHAT_MODELS, List.any_cons,
        List.any_nil, Bool.or_false, Bool.or_eq_true, e1, e2, e3, e4, e5]
      rcases h with h | h | h | h
      · exact Or.inl h
      · exact Or.inr (Or.inl h)
      · exact Or.inr (Or.inr (Or.inl h))
      · exact Or.inr (Or.inr (Or.inr (Or.inl h)))
  · intro opts prompt
    cases hch : OpenAILLMClient.isChatModel (opts.model.read.getD "") <;>
      simp [OpenAILLMClient.requestBody, hch, OpenAILLMClient.RequestShape.isChatShape]

/-- C2: whenever the merged configuration (stored config plus per-call
override) selects the openai provider with no OpenAI API key present,
`createClient` fails with the error naming the missing field.  The factory
and the client constructors are pure construction code with no transport
parameter, so zero HTTP transport calls are made. -/
theorem C2_factory_missing_openai_key (cfg : LLMConfig) (ov : LLMConfigOverride)
    (hp : (mergeConfig cfg ov).provider = some "openai")
    (hk : (mergeConfig cfg ov).openaiApiKey = none) :
    LLMClientFactory.createClient cfg ov =
      .error "OpenAI API key is required for OpenAI provider"
    ∧ strContains "OpenAI API key is required for OpenAI provider" "OpenAI API key" = true := by
  constructor
  · simp [LLMClientFactory.createClient, hp, hk, strTruthy]
  · decide

/-- C2 witness at a concrete configuration. -/
theorem C2_witness :
    LLMClientFactory.createClient (bareConfig "openai") noOverride =
      .error "OpenAI API key is required for OpenAI provider"
    ∧ strContains "OpenAI API key is required for OpenAI provider" "OpenAI API key" = true :=
  C2_factory_missing_openai_key (bareConfig "openai") noOverride rfl rfl

/-- C3: the model used by the factory follows the precedence
per-call override > global model setting > provider-specific default.
When only the override layer carries a (nonempty) model it wins; when only
the global layer does, it is used; when neither does, the provider-specific
default of the (merged) configuration is used; and a constructed local
client's effective model is exactly the resolved model. -/
theorem C3_model_precedence (cfg : LLMConfig) (ov : LLMConfigOverride) (p m g : String) :
    ( ov.model = some (some m) → m ≠ "" →
        LLMClientFactory.getModelForProvider (mergeConfig cfg ov) p = some m )
    ∧ ( ov.model = none → cfg.model = some g → g ≠ "" →
        LLMClientFactory.getModelForProvider (mergeConfig cfg ov) p = some g )
    ∧ ( ov.model = none → cfg.model = none →
        LLMClientFactory.getModelForProvider (mergeConfig cfg ov) p =
          ( if p = "openai" then (mergeConfig cfg ov).openaiDefaultModel
            else if p = "anthropic" then (mergeConfig cfg ov).anthropicDefaultModel
            else if p = "gemini" then (mergeConfig cfg ov).geminiDefaultModel
            else if p = "custom" then (mergeConfig cfg ov).customDefaultModel
            else if p = "local" then (mergeConfig cfg ov).localModel
            else none ) )
    ∧ ( (mergeConfig cfg ov).provider = some "local" →
        resultModel (LLMClientFactory.createClient cfg ov) =
          some (LLMClientFactory.getModelForProvider (mergeConfig cfg ov) "local") ) := by
  refine ⟨?_, ?_, ?_, ?_⟩
  · intro h1 h2
    simp [LLMClientFactory.getModelForProvider, mergeConfig, mergeField, h1, strTruthy, h2]
  · intro h1 h2 h3
    simp [LLMClientFactory.getModelForProvider, mergeConfig, mergeField, h1, h2, strTruthy, h3]
  · intro h1 h2
    simp [LLMClientFactory.getModelForProvider, mergeConfig, mergeField, h1, h2, strTruthy]
  · intro hp
    simp [LLMClientFactory.createClient, hp, resultModel, LLMClient.optionsOf,
      LocalLLMClient.make, BaseLLMClient.initOptions, LLMClientOptions.spread,
      JsField.ovr, JsField.read, emptyOpts, Option.join]

/-- C3 witness: three configurations that each set exactly one model layer,
plus a constructed local client whose model equals the resolved one. -/
theorem C3_witness :
    LLMClientFactory.getModelForProvider (mergeConfig (bareConfig "openai") ovOnlyModel) "openai"
      = some "override-model"
    ∧ LLMClientFactory.getModelForProvider (mergeConfig cfgGlobalModel noOverride) "openai"
      = some "global-model"
    ∧ LLMClientFactory.getModelForProvider (mergeConfig cfgOpenaiDefault noOverride) "openai"
      = some "openai-default"
    ∧ resultModel (LLMClientFactory.createClient cfgLocalModel noOverride)
      = some (some "local-default") := by
  refine ⟨?_, ?_, ?_, ?_⟩
  · exact (C3_model_precedence (bareConfig "openai") ovOnlyModel "openai" "override-model" "x").1
      rfl (by decide)
  · exact (C3_model_precedence cfgGlobalModel noOverride "openai" "x" "global-model").2.1
      rfl rfl (by decide)
  · have h := (C3_model_precedence cfgOpenaiDefault noOverride "openai" "x" "y").2.2.1 rfl rfl
    rw [h]
    decide
  · have h := (C3_model_precedence cfgLocalModel noOverride "local" "x" "y").2.2.2 rfl
    rw [h]
    decide

/-- C4: for each of the five client variants, an absent required credential
yields `isConfigured = false`; for the four variants whose credential is an
API key (and the custom endpoint) the constructor itself rejects such
options with the configuration error, so no client — and hence no
`getCompletion` network call — can exist in that state; for the Local
variant, whose endpoint-absent state is constructible, `getCompletion`
fails fast with the configuration error after zero HTTP posts. -/
theorem C4_unconfigured_clients (o : LLMClientOptions) (prompt : String)
    (resp : HttpResponse) :
    ( o.apiKey.read = none →
        OpenAILLMClient.isConfigured (OpenAILLMClient.initState o) = false
        ∧ OpenAILLMClient.make o = .error "OpenAI API key is required" )
    ∧ ( o.apiKey.read = none →
        AnthropicLLMClient.isConfigured (AnthropicLLMClient.initState o) = false
        ∧ AnthropicLLMClient.make o = .error "Anthropic API key is required" )
    ∧ ( o.apiKey.read = none →
        GeminiLLMClient.isConfigured (GeminiLLMClient.initState o) = false
        ∧ GeminiLLMClient.make o = .error "Google API key is required" )
    ∧ ( o.apiKey.read = none ∨ o.endpoint.read = none →
        (∀ pn, CustomLLMClient.isConfigured ⟨BaseLLMClient.initOptions o, pn⟩ = false)
        ∧ (CustomLLMClient.make o).isOk = false )
    ∧ ( (LocalLLMClient.make o).endpoint.read = none →
        LocalLLMClient.isConfigured (LocalLLMClient.make o) = false
        ∧ LocalLLMClient.getCompletion (LocalLLMClient.make o) prompt resp
            = (.error ⟨"API endpoint not specified", some 400⟩, 0) ) := by
  refine ⟨?_, ?_, ?_, ?_, ?_⟩
  · intro h
    constructor
    · simp only [OpenAILLMClient.isConfigured, OpenAILLMClient.initState,
        BaseLLMClient.initOptions, LLMClientOptions.spread, JsField.ovr_none_left,
        emptyOpts]
      rw [h]
      rfl
    · simp only [OpenAILLMClient.make]
      rw [h]
      rfl
  · intro h
    constructor
    · simp only [AnthropicLLMClient.isConfigured, AnthropicLLMClient.initState,
        BaseLLMClient.initOptions, LLMClientOptions.spread, JsField.ovr_none_left,
        emptyOpts]
      rw [h]
      rfl
    · simp only [AnthropicLLMClient.make]
      rw [h]
      rfl
  · intro h
    constructor
    · simp only [GeminiLLMClient.isConfigured, GeminiLLMClient.initState,
        BaseLLMClient.initOptions, LLMClientOptions.spread, JsField.ovr_none_left,
        emptyOpts]
      rw [h]
      rfl
    · simp only [GeminiLLMClient.make]
      rw [h]
      rfl
  · intro h
    constructor
    · intro pn
      simp only [CustomLLMClient.isConfigured, BaseLLMClient.initOptions,
        LLMClientOptions.spread, JsField.ovr_none_left, emptyOpts]
      rcases h with h | h
      · rw [h]; rfl
      · rw [h]; simp [strTruthy]
    · rcases h with h | h
      · simp only [CustomLLMClient.make]
        rw [h]
        rfl
      · simp only [CustomLLMClient.make]
        rw [h]
        cases hs : strTruthy o.apiKey.read <;> rfl
  · intro h
    constructor
    · simp only [LocalLLMClient.isConfigured]
      rw [h]
      rfl
    · simp only [LocalLLMClient.getCompletion, BaseLLMClient.sendLLMRequest]
      rw [h]
      rfl

/-- C4 witness at concrete option records (empty options for the key-based
variants; an explicitly-undefined endpoint, as the factory produces, for the
Local variant). -/
theorem C4_witness :
    ( OpenAILLMClient.isConfigured (OpenAILLMClient.initState emptyOpts) = false
      ∧ OpenAILLMClient.make emptyOpts = .error "OpenAI API key is required" )
    ∧ ( AnthropicLLMClient.isConfigured (AnthropicLLMClient.initState emptyOpts) = false
      ∧ AnthropicLLMClient.make emptyOpts = .error "Anthropic API key is required" )
    ∧ ( GeminiLLMClient.isConfigured (GeminiLLMClient.initState emptyOpts) = false
      ∧ GeminiLLMClient.make emptyOpts = .error "Google API key is required" )
    ∧ ( CustomLLMClient.isConfigured ⟨BaseLLMClient.initOptions emptyOpts, "Custom Provider"⟩ = false
      ∧ (CustomLLMClient.make emptyOpts).isOk = false )
    ∧ ( LocalLLMClient.isConfigured (LocalLLMClient.make optsUndefEndpoint) = false
      ∧ LocalLLMClient.getCompletion (LocalLLMClient.make optsUndefEndpoint) "p" ⟨200, none⟩
          = (.error ⟨"API endpoint not specified", some 400⟩, 0) ) := by
  have h := C4_unconfigured_clients emptyOpts "p" ⟨200, none⟩
  have h2 := C4_unconfigured_clients optsUndefEndpoint "p" ⟨200, none⟩
  exact ⟨h.1 rfl, h.2.1 rfl, h.2.2.1 rfl,
    ⟨(h.2.2.2.1 (Or.inl rfl)).1 "Custom Provider", (h.2.2.2.1 (Or.inl rfl)).2⟩,
    h2.2.2.2.2 rfl⟩

/-- C5 (counterexample): the claim asserts that every variant throws on an
HTTP status ≥ 400 regardless of body content; the curl-based OpenAI client
never observes the status, and on a status-500 response whose body is a
well-formed success shape it returns a successful completion. -/
theorem C5_counterexample :
    OpenAILLMClient.getCompletion (OpenAILLMClient.initState openaiCompletionsOpts) "p"
      ⟨500, some openaiSuccessBody⟩ = .ok ⟨"hi", .passthrough (.jobj [])⟩
    ∧ 400 ≤ 500 := by
  exact ⟨rfl, by decide⟩

/-- C5 (amended): the clients that send through
`BaseLLMClient.sendLLMRequest` (Local and Custom) throw an error carrying
the HTTP status and an "API returned error status" message whenever the
status is ≥ 400, regardless of the body; the curl-based OpenAI, Anthropic
and Gemini clients never observe the HTTP status (their results are
independent of it). -/
theorem C5_http_status_errors (o : LLMClientOptions) (st : CustomState)
    (prompt : String) (resp : HttpResponse) (hs : 400 ≤ resp.status) :
    ( strTruthy o.endpoint.read = true →
        LocalLLMClient.getCompletion o prompt resp =
          (.error ⟨"Error calling Local LLM API: " ++
              ("API returned error status: " ++ toString resp.status), some resp.status⟩, 1) )
    ∧ ( strTruthy st.options.endpoint.read = true →
        CustomLLMClient.getCompletion st prompt resp =
          (.error ⟨"Error calling " ++ st.providerName ++ " API: " ++
              ("API returned error status: " ++ toString resp.status), some resp.status⟩, 1) )
    ∧ ( ∀ s1 s2 body, OpenAILLMClient.getCompletion o prompt ⟨s1, body⟩ =
          OpenAILLMClient.getCompletion o prompt ⟨s2, body⟩ )
    ∧ ( ∀ s1 s2 body, AnthropicLLMClient.getCompletion o prompt ⟨s1, body⟩ =
          AnthropicLLMClient.getCompletion o prompt ⟨s2, body⟩ )
    ∧ ( ∀ s1 s2 body, GeminiLLMClient.getCompletion o prompt ⟨s1, body⟩ =
          GeminiLLMClient.getCompletion o prompt ⟨s2, body⟩ ) := by
  have hne : resp.status ≠ 0 := by omega
  refine ⟨?_, ?_, ?_, ?_, ?_⟩
  · intro he
    simp only [LocalLLMClient.getCompletion, BaseLLMClient.sendLLMRequest, he,
      Bool.not_true, LocalLLMClient.getName]
    rw [if_neg (by simp), if_pos hs]
    simp [hne]
  · intro he
    simp only [CustomLLMClient.getCompletion, BaseLLMClient.sendLLMRequest, he,
      Bool.not_true, CustomLLMClient.getName]
    rw [if_neg (by simp), if_pos hs]
    simp [hne]
  · intro s1 s2 body; rfl
  · intro s1 s2 body; rfl
  · intro s1 s2 body; rfl

/-- C5 witness: a configured Local client on a status-500 response. -/
theorem C5_witness :
    LocalLLMClient.getCompletion (LocalLLMClient.make emptyOpts) "p"
      ⟨500, some openaiSuccessBody⟩ =
      (.error ⟨"Error calling Local LLM API: " ++
          ("API returned error status: " ++ toString (500 : Nat)), some 500⟩, 1)
    ∧ 400 ≤ 500 := by
  constructor
  · exact (C5_http_status_errors (LocalLLMClient.make emptyOpts) customSt "p"
      ⟨500, some openaiSuccessBody⟩ (by decide)).1 (by decide)
  · decide

/-- C6 (counterexample): on a vendor error body with message "boom", the
Anthropic client's thrown message does not contain its display name
"Anthropic Claude" (only "Anthropic"), and the Gemini client's intermediate
`catch (readError)` swallows the vendor text entirely, so its message
contains neither the display name "Google Gemini" nor "boom". -/
theorem C6_counterexample :
    AnthropicLLMClient.getCompletion (AnthropicLLMClient.initState keyOnlyOpts) "p"
        ⟨200, some vendorErrBody⟩ =
      .error "Error calling Anthropic API: Error: Error parsing Anthropic response: Error: Anthropic API error: boom"
    ∧ strContains
        "Error calling Anthropic API: Error: Error parsing Anthropic response: Error: Anthropic API error: boom"
        AnthropicLLMClient.getName = false
    ∧ GeminiLLMClient.getCompletion (GeminiLLMClient.initState keyOnlyOpts) "p"
        ⟨200, some vendorErrBody⟩ =
      .error "Error calling Gemini API: Error: Failed to read API response"
    ∧ strContains "Error calling Gemini API: Error: Failed to read API response"
        GeminiLLMClient.getName = false
    ∧ strContains "Error calling Gemini API: Error: Failed to read API response" "boom" = false := by
  exact ⟨rfl, by decide, rfl, by decide, by decide⟩

/-- On a vendor error body with a truthy message, `LocalLLMClient.parseResponse`
yields the vendor message wrapped with the "Local LLM API error" label. -/
theorem localParse_vendor (status : Nat) (body errObj : JVal) (m : String)
    (hb : body.getF "error" = some errObj) (htr : errObj.truthy = true)
    (hm : errObj.getF "message" = some (.jstr m)) (hmne : m ≠ "") :
    ∃ stv, LocalLLMClient.parseResponse ⟨status, some body⟩ =
      .error ⟨"Local LLM API error: " ++ m, some stv⟩ := by
  refine ⟨(match errObj.getF "status" with
    | some (.jnum n) => if n = 0 then 400 else n.toNat
    | _ => 400), ?_⟩
  have hdm : (!decide (m = "")) = true := by simp [hmne]
  have hcon : strContains ("Local LLM API error: " ++ m) "Local LLM API" = true :=
    strContains_append_of_left _ _ _ (by decide)
  have hne2 : strTruthy (some ("Local LLM API error: " ++ m)) = true := by
    simp [strTruthy, str_append_ne_empty "Local LLM API error: " m (by decide)]
  simp only [LocalLLMClient.parseResponse, hb, Option.getD_some]
  rw [hm]
  simp only [truthyO]
  rw [htr]
  simp only [JVal.truthy, hdm, displayO, JVal.display, JVal.displayFuel]
  simp [hcon, hne2, hmne]

/-- The same for `CustomLLMClient.parseResponse` with an arbitrary provider name. -/
theorem customParse_vendor (pn : String) (status : Nat) (body errObj : JVal) (m : String)
    (hb : body.getF "error" = some errObj) (htr : errObj.truthy = true)
    (hm : errObj.getF "message" = some (.jstr m)) (hmne : m ≠ "") :
    ∃ stv, CustomLLMClient.parseResponse pn ⟨status, some body⟩ =
      .error ⟨pn ++ " API error: " ++ m, some stv⟩ := by
  refine ⟨(match errObj.getF "status" with
    | some (.jnum n) => if n = 0 then 400 else n.toNat
    | _ => 400), ?_⟩
  have hdm : (!decide (m = "")) = true := by simp [hmne]
  have hcon : strContains (pn ++ " API error: " ++ m) (pn ++ " API") = true := by
    simp only [strContains, String.toList, String.data_append, List.append_assoc]
    exact occursIn_of_startsWith _ _
      (startsWithL_append_both pn.data _ _ (startsWithL_extend _ _ _ (by decide)))
  have hne2 : strTruthy (some (pn ++ " API error: " ++ m)) = true := by
    simp only [strTruthy]
    have hne3 : pn ++ " API error: " ++ m ≠ "" := by
      rw [String.append_assoc]
      exact str_append_ne_empty_right _ _ (str_append_ne_empty " API error: " m (by decide))
    simp [hne3]
  simp only [CustomLLMClient.parseResponse, hb, Option.getD_some]
  rw [hm]
  simp only [truthyO]
  rw [htr]
  simp only [JVal.truthy, hdm, displayO, JVal.display, JVal.displayFuel]
  simp [hcon, hne2, hmne]

/-- C6 (amended): on a response body carrying a vendor error object with a
nonempty message, every client throws; the OpenAI, Local and Custom
messages contain both the vendor's error text and the client's display
name; the Anthropic message contains the vendor's error text and the label
"Anthropic" but is built from that label, not from the display name
"Anthropic Claude"; and the Gemini message is the constant
"Error calling Gemini API: Error: Failed to read API response", which
omits the vendor text (swallowed by the intermediate catch). -/
theorem C6_vendor_error_messages (o : LLMClientOptions) (st : CustomState)
    (prompt : String) (status : Nat) (body errObj : JVal) (m : String)
    (hb : body.getF "error" = some errObj) (htr : errObj.truthy = true)
    (hm : errObj.getF "message" = some (.jstr m)) (hmne : m ≠ "") :
    ( errMsgS (OpenAILLMClient.getCompletion o prompt ⟨status, some body⟩) =
        some ("Error calling OpenAI API: " ++
          errDisplay ("Error parsing OpenAI response: " ++
            errDisplay ("OpenAI API error: " ++ m)))
      ∧ strContains ("Error calling OpenAI API: " ++
          errDisplay ("Error parsing OpenAI response: " ++
            errDisplay ("OpenAI API error: " ++ m))) m = true
      ∧ strContains ("Error calling OpenAI API: " ++
          errDisplay ("Error parsing OpenAI response: " ++
            errDisplay ("OpenAI API error: " ++ m))) OpenAILLMClient.getName = true )
    ∧ ( errMsgS (AnthropicLLMClient.getCompletion o prompt ⟨status, some body⟩) =
        some ("Error calling Anthropic API: " ++
          errDisplay ("Error parsing Anthropic response: " ++
            errDisplay ("Anthropic API error: " ++ m)))
      ∧ strContains ("Error calling Anthropic API: " ++
          errDisplay ("Error parsing Anthropic response: " ++
            errDisplay ("Anthropic API error: " ++ m))) m = true
      ∧ strContains ("Error calling Anthropic API: " ++
          errDisplay ("Error parsing Anthropic response: " ++
            errDisplay ("Anthropic API error: " ++ m))) "Anthropic" = true )
    ∧ ( errMsgS (GeminiLLMClient.getCompletion o prompt ⟨status, some body⟩) =
        some ("Error calling Gemini API: " ++ errDisplay "Failed to read API response") )
    ∧ ( strTruthy o.endpoint.read = true → status < 400 →
        errMsgE (LocalLLMClient.getCompletion o prompt ⟨status, some body⟩) =
          some ("Error calling Local LLM API: " ++ ("Local LLM API error: " ++ m))
        ∧ strContains ("Error calling Local LLM API: " ++ ("Local LLM API error: " ++ m)) m = true
        ∧ strContains ("Error calling Local LLM API: " ++ ("Local LLM API error: " ++ m))
            LocalLLMClient.getName = true )
    ∧ ( strTruthy st.options.endpoint.read = true → status < 400 →
        errMsgE (CustomLLMClient.getCompletion st prompt ⟨status, some body⟩) =
          some ("Error calling " ++ st.providerName ++ " API: " ++
            (st.providerName ++ " API error: " ++ m))
        ∧ strContains ("Error calling " ++ st.providerName ++ " API: " ++
            (st.providerName ++ " API error: " ++ m)) m = true
        ∧ strContains ("Error calling " ++ st.providerName ++ " API: " ++
            (st.providerName ++ " API error: " ++ m)) (CustomLLMClient.getName st) = true ) := by
  have htm : JVal.truthy (.jstr m) = true := by
    simp [JVal.truthy, hmne]
  refine ⟨⟨?_, ?_, ?_⟩, ⟨?_, ?_, ?_⟩, ?_, ?_, ?_⟩
  · simp [OpenAILLMClient.getCompletion, hb, truthyO, htr, hm, errMsgS,
      displayO, JVal.display, JVal.displayFuel]
  · refine strContains_append_of_right _ _ _ ?_
    simp only [errDisplay]
    refine strContains_append_of_right _ _ _ ?_
    refine strContains_append_of_right _ _ _ ?_
    refine strContains_append_of_right _ _ _ ?_
    exact strContains_append_self _ _
  · exact strContains_append_of_left _ _ _ (by decide)
  · simp [AnthropicLLMClient.getCompletion, hb, truthyO, htr, hm, errMsgS,
      displayO, JVal.display, JVal.displayFuel]
  · refine strContains_append_of_right _ _ _ ?_
    simp only [errDisplay]
    refine strContains_append_of_right _ _ _ ?_
    refine strContains_append_of_right _ _ _ ?_
    refine strContains_append_of_right _ _ _ ?_
    exact strContains_append_self _ _
  · exact strContains_append_of_left _ _ _ (by decide)
  · simp [GeminiLLMClient.getCompletion, hb, truthyO, htr, errMsgS]
  · intro he hst
    have hne : ¬ (400 ≤ status) := by omega
    obtain ⟨stv, hp⟩ := localParse_vendor status body errObj m hb htr hm hmne
    refine ⟨?_, ?_, ?_⟩
    · simp only [LocalLLMClient.getCompletion, BaseLLMClient.sendLLMRequest, he,
        Bool.not_true, LocalLLMClient.getName]
      rw [if_neg (by simp), if_neg hne, hp]
      simp [errMsgE]
    · exact strContains_append_of_right _ _ _ (strContains_append_self _ _)
    · exact strContains_append_of_left _ _ _ (by decide)
  · intro he hst
    have hne : ¬ (400 ≤ status) := by omega
    obtain ⟨stv, hp⟩ := customParse_vendor st.providerName status body errObj m hb htr hm hmne
    refine ⟨?_, ?_, ?_⟩
    · simp only [CustomLLMClient.getCompletion, BaseLLMClient.sendLLMRequest, he,
        Bool.not_true, CustomLLMClient.getName]
      rw [if_neg (by simp), if_neg hne, hp]
      simp [errMsgE]
    · exact strContains_append_of_right _ _ _ (strContains_append_self _ _)
    · simp only [CustomLLMClient.getName]
      exact strContains_append_of_left _ _ _ (strContains_append_of_left _ _ _
        (strContains_append_self _ _))

/-- C6 witness: the amended statement applied at a concrete vendor error
body with message "boom". -/
theorem C6_witness :
    errMsgE (LocalLLMClient.getCompletion (LocalLLMClient.make emptyOpts) "p"
        ⟨200, some vendorErrBody⟩) =
      some ("Error calling Local LLM API: " ++ ("Local LLM API error: " ++ "boom"))
    ∧ errMsgS (OpenAILLMClient.getCompletion (LocalLLMClient.make emptyOpts) "p"
        ⟨200, some vendorErrBody⟩) =
      some ("Error calling OpenAI API: " ++
        errDisplay ("Error parsing OpenAI response: " ++
          errDisplay ("OpenAI API error: " ++ "boom")))
    ∧ errMsgE (CustomLLMClient.getCompletion customSt "p" ⟨200, some vendorErrBody⟩) =
      some ("Error calling " ++ customSt.providerName ++ " API: " ++
        (customSt.providerName ++ " API error: " ++ "boom")) := by
  have h := C6_vendor_error_messages (LocalLLMClient.make emptyOpts) customSt "p" 200
    vendorErrBody (.jobj [("message", .jstr "boom")]) "boom" rfl rfl rfl (by decide)
  exact ⟨(h.2.2.2.1 (by decide) (by decide)).1, h.1.1,
    (h.2.2.2.2 (by decide) (by decide)).1⟩

/-- C7: every successful Gemini completion carries a reconstructed usage
record with totalTokens = promptTokens + completionTokens, and when the
response has no usageMetadata at all, all three counts are 0. -/
theorem C7_gemini_usage (o : LLMClientOptions) (prompt : String) (resp : HttpResponse)
    (r : LLMCompletionResult)
    (h : GeminiLLMClient.getCompletion o prompt resp = .ok r) :
    (∃ u : TokenUsage, r.usage = .counted u
      ∧ u.totalTokens = u.promptTokens + u.completionTokens)
    ∧ (∀ parsed, resp.body = some parsed → parsed.getF "usageMetadata" = none →
        r.usage = .counted ⟨0, 0, 0⟩) := by
  simp only [GeminiLLMClient.getCompletion] at h
  cases hb : resp.body with
  | none => rw [hb] at h; simp at h
  | some parsed =>
    rw [hb] at h
    cases he : truthyO (parsed.getF "error") with
    | true => simp [he] at h
    | false =>
      simp only [he, Bool.false_eq_true, if_false] at h
      cases hcond : (truthyLen (parsed.getF "candidates")
          && truthyO ((idx0 (parsed.getF "candidates")).getF "content")
          && truthyLen (((idx0 (parsed.getF "candidates")).getF "content").bind
              fun c => c.getF "parts")) with
      | false => simp [hcond] at h
      | true =>
        simp only [hcond, if_true] at h
        rcases hparts : ((idx0 (parsed.getF "candidates")).getF "content").bind
            (fun c => c.getF "parts") with _ | j
        · rw [hparts] at h; simp at h
        · rw [hparts] at h
          cases j with
          | jarr parts =>
            simp only [Except.ok.injEq] at h
            subst h
            constructor
            · exact ⟨_, rfl, rfl⟩
            · intro parsed2 hb2 hmeta
              injection hb2 with hb3
              subst hb3
              simp [hmeta, numOrZero]
          | jnull => simp at h
          | jbool b => simp at h
          | jnum n => simp at h
          | jstr s2 => simp at h
          | jobj fs => simp at h

/-- C7 witness: a concrete successful Gemini response without usage
metadata yields usage (0, 0, 0). -/
theorem C7_witness :
    (∃ u : TokenUsage,
        (LLMCompletionResult.mk "hi" (.counted ⟨0, 0, 0⟩)).usage = .counted u
        ∧ u.totalTokens = u.promptTokens + u.completionTokens)
    ∧ (∀ parsed, (HttpResponse.mk 200 (some geminiOkBody)).body = some parsed →
        parsed.getF "usageMetadata" = none →
        (LLMCompletionResult.mk "hi" (.counted ⟨0, 0, 0⟩)).usage = .counted ⟨0, 0, 0⟩) :=
  C7_gemini_usage (GeminiLLMClient.initState keyOnlyOpts) "p" ⟨200, some geminiOkBody⟩
    ⟨"hi", .counted ⟨0, 0, 0⟩⟩ rfl

/-- C8 (counterexample): the claim asserts that the defaults temperature 0.5
and maxTokens 500 also apply to clients built by `createClient` from a
configuration leaving those fields unset; in fact the factory passes the
fields as present-but-undefined, the spread overrides the class defaults,
and the request built by such a client carries no temperature at all. -/
theorem C8_counterexample :
    resultTemperature (LLMClientFactory.createClient (bareConfig "local") noOverride) = some none
    ∧ resultMaxTokens (LLMClientFactory.createClient (bareConfig "local") noOverride) = some none
    ∧ (match LLMClientFactory.createClient (bareConfig "local") noOverride with
        | .ok (.localClient o) => (LocalLLMClient.formatRequestBody o "p").temperature
        | _ => some 1) = none := by
  exact ⟨rfl, rfl, rfl⟩

/-- Spreading the base defaults over options whose temperature key is
present-but-undefined leaves the temperature undefined. -/
theorem initOptions_undef_temp (x : LLMClientOptions) (hx : x.temperature = some none) :
    (BaseLLMClient.initOptions x).temperature.read = none := by
  simp [BaseLLMClient.initOptions, LLMClientOptions.spread, JsField.ovr, hx,
    emptyOpts, JsField.read, Option.join]

theorem initOptions_undef_maxTok (x : LLMClientOptions) (hx : x.maxTokens = some none) :
    (BaseLLMClient.initOptions x).maxTokens.read = none := by
  simp [BaseLLMClient.initOptions, LLMClientOptions.spread, JsField.ovr, hx,
    emptyOpts, JsField.read, Option.join]

theorem initStateO_undef_temp (x : LLMClientOptions) (hx : x.temperature = some none) :
    (OpenAILLMClient.initState x).temperature.read = none := by
  apply initOptions_undef_temp
  simp [OpenAILLMClient.initState, LLMClientOptions.spread, JsField.ovr, hx, emptyOpts]

theorem initStateA_undef_temp (x : LLMClientOptions) (hx : x.temperature = some none) :
    (AnthropicLLMClient.initState x).temperature.read = none := by
  apply initOptions_undef_temp
  simp [AnthropicLLMClient.initState, LLMClientOptions.spread, JsField.ovr, hx, emptyOpts]

theorem initStateG_undef_temp (x : LLMClientOptions) (hx : x.temperature = some none) :
    (GeminiLLMClient.initState x).temperature.read = none := by
  apply initOptions_undef_temp
  simp [GeminiLLMClient.initState, LLMClientOptions.spread, JsField.ovr, hx, emptyOpts]

theorem makeL_undef_temp (x : LLMClientOptions) (hx : x.temperature = some none) :
    (LocalLLMClient.make x).temperature.read = none := by
  apply initOptions_undef_temp
  simp [LocalLLMClient.make, LLMClientOptions.spread, JsField.ovr, hx, emptyOpts]

theorem initStateO_undef_maxTok (x : LLMClientOptions) (hx : x.maxTokens = some none) :
    (OpenAILLMClient.initState x).maxTokens.read = none := by
  apply initOptions_undef_maxTok
  simp [OpenAILLMClient.initState, LLMClientOptions.spread, JsField.ovr, hx, emptyOpts]

theorem initStateA_undef_maxTok (x : LLMClientOptions) (hx : x.maxTokens = some none) :
    (AnthropicLLMClient.initState x).maxTokens.read = none := by
  apply initOptions_undef_maxTok
  simp [AnthropicLLMClient.initState, LLMClientOptions.spread, JsField.ovr, hx, emptyOpts]

theorem initStateG_undef_maxTok (x : LLMClientOptions) (hx : x.maxTokens = some none) :
    (GeminiLLMClient.initState x).maxTokens.read = none := by
  apply initOptions_undef_maxTok
  simp [GeminiLLMClient.initState, LLMClientOptions.spread, JsField.ovr, hx, emptyOpts]

theorem makeL_undef_maxTok (x : LLMClientOptions) (hx : x.maxTokens = some none) :
    (LocalLLMClient.make x).maxTokens.read = none := by
  apply initOptions_undef_maxTok
  simp [LocalLLMClient.make, LLMClientOptions.spread, JsField.ovr, hx, emptyOpts]

/-- Any client the factory builds from a merged configuration with an unset
temperature ends up with no temperature (the class default is overridden). -/
theorem createClient_temp_none (cfg : LLMConfig) (ov : LLMConfigOverride)
    (h : (mergeConfig cfg ov).temperature = none) :
    ∀ c, LLMClientFactory.createClient cfg ov = .ok c →
      c.optionsOf.temperature.read = none := by
  intro c hc
  simp only [LLMClientFactory.createClient, h] at hc
  split at hc
  · split at hc
    · simp at hc
    · split at hc
      · rename_i o heq
        injection hc with hc2
        subst hc2
        simp only [OpenAILLMClient.make] at heq
        split at heq
        · injection heq with heq2
          subst heq2
          exact initStateO_undef_temp _ rfl
        · simp at heq
      · simp at hc
  · split at hc
    · split at hc
      · simp at hc
      · split at hc
        · rename_i o heq
          injection hc with hc2
          subst hc2
          simp only [AnthropicLLMClient.make] at heq
          split at heq
          · injection heq with heq2
            subst heq2
            exact initStateA_undef_temp _ rfl
          · simp at heq
        · simp at hc
    · split at hc
      · split at hc
        · simp at hc
        · split at hc
          · rename_i o heq
            injection hc with hc2
            subst hc2
            simp only [GeminiLLMClient.make] at heq
            split at heq
            · injection heq with heq2
              subst heq2
              exact initStateG_undef_temp _ rfl
            · simp at heq
          · simp at hc
      · split at hc
        · split at hc
          · simp at hc
          · split at hc
            · simp at hc
            · split at hc
              · rename_i st heq
                injection hc with hc2
                subst hc2
                simp only [CustomLLMClient.make] at heq
                split at heq
                · simp at heq
                · split at heq
                  · simp at heq
                  · injection heq with heq2
                    subst heq2
                    exact initOptions_undef_temp _ rfl
              · simp at hc
        · injection hc with hc2
          subst hc2
          exact makeL_undef_temp _ rfl

/-- The same for an unset maxTokens. -/
theorem createClient_maxTok_none (cfg : LLMConfig) (ov : LLMConfigOverride)
    (h : (mergeConfig cfg ov).maxTokens = none) :
    ∀ c, LLMClientFactory.createClient cfg ov = .ok c →
      c.optionsOf.maxTokens.read = none := by
  intro c hc
  simp only [LLMClientFactory.createClient, h] at hc
  split at hc
  · split at hc
    · simp at hc
    · split at hc
      · rename_i o heq
        injection hc with hc2
        subst hc2
        simp only [OpenAILLMClient.make] at heq
        split at heq
        · injection heq with heq2
          subst heq2
          exact initStateO_undef_maxTok _ rfl
        · simp at heq
      · simp at hc
  · split at hc
    · split at hc
      · simp at hc
      · split at hc
        · rename_i o heq
          injection hc with hc2
          subst hc2
          simp only [AnthropicLLMClient.make] at heq
          split at heq
          · injection heq with heq2
            subst heq2
            exact initStateA_undef_maxTok _ rfl
          · simp at heq
        · simp at hc
    · split at hc
      · split at hc
        · simp at hc
        · split at hc
          · rename_i o heq
            injection hc with hc2
            subst hc2
            simp only [GeminiLLMClient.make] at heq
            split at heq
            · injection heq with heq2
              subst heq2
              exact initStateG_undef_maxTok _ rfl
            · simp at heq
          · simp at hc
      · split at hc
        · split at hc
          · simp at hc
          · split at hc
            · simp at hc
            · split at hc
              · rename_i st heq
                injection hc with hc2
                subst hc2
                simp only [CustomLLMClient.make] at heq
                split at heq
                · simp at heq
                · split at heq
                  · simp at heq
                  · injection heq with heq2
                    subst heq2
                    exact initOptions_undef_maxTok _ rfl
              · simp at hc
        · injection hc with hc2
          subst hc2
          exact makeL_undef_maxTok _ rfl

/-- C8 (amended): when the options object passed to a client constructor
lacks the temperature (resp. maxTokens) key, the effective value is 0.5
(resp. 500) and a directly-constructed Local client puts those defaults on
the wire request; but every client built by `createClient` receives present
keys for all fields, so with a configuration leaving temperature or
maxTokens unset the built-in defaults are overridden and the client carries
no value for them (the serialized request omits those parameters). -/
theorem C8_request_defaults (o : LLMClientOptions) (cfg : LLMConfig)
    (ov : LLMConfigOverride) (prompt : String) :
    ( o.temperature = none →
        (BaseLLMClient.initOptions o).temperature.read = some (1/2 : Rat) )
    ∧ ( o.maxTokens = none →
        (BaseLLMClient.initOptions o).maxTokens.read = some 500 )
    ∧ ( o.temperature = none →
        (LocalLLMClient.formatRequestBody (LocalLLMClient.make o) prompt).temperature
          = some (1/2 : Rat) )
    ∧ ( o.maxTokens = none →
        (LocalLLMClient.formatRequestBody (LocalLLMClient.make o) prompt).max_tokens
          = some 500 )
    ∧ ( (mergeConfig cfg ov).temperature = none → ∀ c,
        LLMClientFactory.createClient cfg ov = .ok c →
          c.optionsOf.temperature.read = none )
    ∧ ( (mergeConfig cfg ov).maxTokens = none → ∀ c,
        LLMClientFactory.createClient cfg ov = .ok c →
          c.optionsOf.maxTokens.read = none ) := by
  refine ⟨?_, ?_, ?_, ?_, createClient_temp_none cfg ov, createClient_maxTok_none cfg ov⟩
  · intro h
    simp [BaseLLMClient.initOptions, LLMClientOptions.spread, JsField.ovr, h,
      emptyOpts, JsField.read, Option.join]
  · intro h
    simp [BaseLLMClient.initOptions, LLMClientOptions.spread, JsField.ovr, h,
      emptyOpts, JsField.read, Option.join]
  · intro h
    simp [LocalLLMClient.formatRequestBody, LocalLLMClient.make,
      BaseLLMClient.initOptions, LLMClientOptions.spread, JsField.ovr, h,
      emptyOpts, JsField.read, Option.join]
  · intro h
    simp [LocalLLMClient.formatRequestBody, LocalLLMClient.make,
      BaseLLMClient.initOptions, LLMClientOptions.spread, JsField.ovr, h,
      emptyOpts, JsField.read, Option.join]

/-- C8 witness: the defaults apply to direct construction from an empty
options object, and a factory-built local client from an empty
configuration carries no temperature. -/
theorem C8_witness :
    (BaseLLMClient.initOptions emptyOpts).temperature.read = some (1/2 : Rat)
    ∧ (LocalLLMClient.formatRequestBody (LocalLLMClient.make emptyOpts) "p").temperature
        = some (1/2 : Rat)
    ∧ (LLMClient.localClient (LocalLLMClient.make
        { model := some none, temperature := some none, maxTokens := some none,
          apiKey := none, endpoint := some none,
          providerName := none })).optionsOf.temperature.read = none := by
  have h := C8_request_defaults emptyOpts (bareConfig "local") noOverride "p"
  exact ⟨h.1 rfl, h.2.2.1 rfl, h.2.2.2.2.1 rfl _ rfl⟩

/-- C9: when the merged configuration selects the local provider and leaves
endpoint, model, temperature and maxTokens unset, `createClient` still
passes those keys explicitly (with the value `undefined`), so the spread
overrides every built-in default of `LocalLLMClient`: the constructed
client has no endpoint (despite the class's default endpoint), no model,
no temperature, no maxTokens, and reports `isConfigured() = false`. -/
theorem C9_factory_clobbers_defaults (cfg : LLMConfig) (ov : LLMConfigOverride)
    (hp : (mergeConfig cfg ov).provider = some "local")
    (he : (mergeConfig cfg ov).localEndpoint = none)
    (hm : (mergeConfig cfg ov).model = none)
    (hlm : (mergeConfig cfg ov).localModel = none)
    (ht : (mergeConfig cfg ov).temperature = none)
    (hmt : (mergeConfig cfg ov).maxTokens = none) :
    isLocalResult (LLMClientFactory.createClient cfg ov) = true
    ∧ resultEndpoint (LLMClientFactory.createClient cfg ov) = some none
    ∧ resultModel (LLMClientFactory.createClient cfg ov) = some none
    ∧ resultTemperature (LLMClientFactory.createClient cfg ov) = some none
    ∧ resultMaxTokens (LLMClientFactory.createClient cfg ov) = some none
    ∧ (∀ c, LLMClientFactory.createClient cfg ov = .ok c →
        LocalLLMClient.isConfigured c.optionsOf = false) := by
  have hmodel : LLMClientFactory.getModelForProvider (mergeConfig cfg ov) "local" = none := by
    simp [LLMClientFactory.getModelForProvider, hm, hlm, strTruthy]
  refine ⟨?_, ?_, ?_, ?_, ?_, ?_⟩
  · simp [LLMClientFactory.createClient, hp, isLocalResult]
  · simp [LLMClientFactory.createClient, hp, he, resultEndpoint, LLMClient.optionsOf,
      LocalLLMClient.make, BaseLLMClient.initOptions, LLMClientOptions.spread,
      JsField.ovr, emptyOpts, JsField.read, Option.join]
  · simp [LLMClientFactory.createClient, hp, hmodel, resultModel, LLMClient.optionsOf,
      LocalLLMClient.make, BaseLLMClient.initOptions, LLMClientOptions.spread,
      JsField.ovr, emptyOpts, JsField.read, Option.join]
  · simp [LLMClientFactory.createClient, hp, ht, resultTemperature, LLMClient.optionsOf,
      LocalLLMClient.make, BaseLLMClient.initOptions, LLMClientOptions.spread,
      JsField.ovr, emptyOpts, JsField.read, Option.join]
  · simp [LLMClientFactory.createClient, hp, hmt, resultMaxTokens, LLMClient.optionsOf,
      LocalLLMClient.make, BaseLLMClient.initOptions, LLMClientOptions.spread,
      JsField.ovr, emptyOpts, JsField.read, Option.join]
  · intro c hc
    simp [LLMClientFactory.createClient, hp] at hc
    subst hc
    simp [LocalLLMClient.isConfigured, LLMClient.optionsOf, LocalLLMClient.make,
      BaseLLMClient.initOptions, LLMClientOptions.spread, JsField.ovr, emptyOpts,
      JsField.read, Option.join, strTruthy, he]

/-- C9 witness: an entirely empty local configuration. -/
theorem C9_witness :
    isLocalResult (LLMClientFactory.createClient (bareConfig "local") noOverride) = true
    ∧ resultEndpoint (LLMClientFactory.createClient (bareConfig "local") noOverride)
        = some none := by
  have h := C9_factory_clobbers_defaults (bareConfig "local") noOverride
    rfl rfl rfl rfl rfl rfl
  exact ⟨h.1, h.2.1⟩

/-- C10: `createClient` never throws on an unrecognized provider tag — for
any merged provider value other than the five known tags it falls through
the switch into the default branch and returns a LocalLLMClient. -/
theorem C10_unknown_provider_is_local (cfg : LLMConfig) (ov : LLMConfigOverride)
    (_h1 : (mergeConfig cfg ov).provider ≠ some "local")
    (h2 : (mergeConfig cfg ov).provider ≠ some "openai")
    (h3 : (mergeConfig cfg ov).provider ≠ some "anthropic")
    (h4 : (mergeConfig cfg ov).provider ≠ some "gemini")
    (h5 : (mergeConfig cfg ov).provider ≠ some "custom") :
    isLocalResult (LLMClientFactory.createClient cfg ov) = true := by
  simp [LLMClientFactory.createClient, h2, h3, h4, h5, isLocalResult]

/-- C10 witness: a configuration whose provider tag is "bogus". -/
theorem C10_witness :
    isLocalResult (LLMClientFactory.createClient (bareConfig "bogus") noOverride) = true :=
  C10_unknown_provider_is_local (bareConfig "bogus") noOverride
    (by decide) (by decide) (by decide) (by decide) (by decide)
